import Mathlib

/-!
# KSmoothDock: task enumeration and the multi-dock configuration model

A shallow embedding of `src/utils/task_utils.cc` and of the inline accessors of
`src/multi_dock_model.h`.

The window manager (`KWindowSystem`, `KWindowInfo`), the desktop widget
(`QApplication::desktop()`) and the configuration store (`KConfig`) are
libraries outside the repository.  Their answers are the fields of an explicit
environment (`WindowSystem`) and an explicit key/value store (`KConfig`); the
repository's own functions are translated statement by statement on top of
them.
-/

namespace ksmoothdock

/-! ## Window-manager vocabulary (`NET`, from KWindowSystem's `netwm_def.h`) -/

/-- Window identifier (`WId`). -/
abbrev WId := Nat

namespace NET

/-- Enumerators of `NET::WindowType`. -/
inductive WindowType where
  | Unknown
  | Normal
  | Desktop
  | Dock
  | Toolbar
  | Menu
  | Dialog
  | Override
  | TopMenu
  | Utility
  | Splash
  | DropdownMenu
  | PopupMenu
  | Tooltip
  | Notification
  | ComboBox
  | DNDIcon
  | OnScreenDisplay
  | CriticalNotification
  deriving DecidableEq, Repr

/-- Bit `NET::DesktopMask` of `NET::WindowTypeMask`. -/
def DesktopMask : Nat := 1 <<< 1

/-- Bit `NET::DockMask` of `NET::WindowTypeMask`. -/
def DockMask : Nat := 1 <<< 2

/-- Bit `NET::SkipTaskbar` of `NET::States`. -/
def SkipTaskbar : Nat := 1 <<< 5

/-- Bit `NET::SkipPager` of `NET::States`. -/
def SkipPager : Nat := 1 <<< 7

end NET

/-- Rectangle (`QRect`): left, top, width, height. -/
structure QRect where
  x : Int
  y : Int
  width : Int
  height : Int
  deriving DecidableEq, Repr

/-- Pixel payload of an icon (`QPixmap`); it is only passed through. -/
abbrev QPixmap := List Nat

/-- Answers of the window manager and of the desktop widget at the moment
`task_utils.cc` queries them. -/
structure WindowSystem where
  /-- The list `KWindowSystem::windows()`. -/
  windows : List WId
  /-- The test `KWindowSystem::hasWId(wId)`. -/
  hasWId : WId → Bool
  /-- The call `KWindowInfo(wId, ..).windowType(supportedTypes)`. -/
  windowType : WId → Nat → NET.WindowType
  /-- The flags `KWindowInfo(wId, ..).state()`. -/
  state : WId → Nat
  /-- The test `KWindowInfo(wId, NET::WMDesktop).isOnCurrentDesktop()`. -/
  isOnCurrentDesktop : WId → Bool
  /-- The rectangle `KWindowInfo(wId, NET::WMFrameExtents).frameGeometry()`. -/
  frameGeometry : WId → QRect
  /-- The bytes `KWindowInfo(wId, ..).windowClassName()`. -/
  windowClassName : WId → String
  /-- The string `KWindowInfo(wId, ..).visibleName()`. -/
  visibleName : WId → String
  /-- The pixmap `KWindowSystem::icon(wId, width, height)`. -/
  icon : WId → Int → Int → QPixmap
  /-- The number `QApplication::desktop()->screenCount()`: a count of
  screens, so it is never negative. -/
  screenCount : Nat
  /-- The rectangle `QApplication::desktop()->screenGeometry(screen)`. -/
  screenGeometry : Int → QRect
  /-- The test `a.intersects(b)` of `QRect`. -/
  intersects : QRect → QRect → Bool

/-- Record built by `TaskInfo(wId, program, name, icon)`. -/
structure TaskInfo where
  wId : WId
  program : String
  name : String
  icon : QPixmap
  deriving DecidableEq, Repr

/-! ## `task_utils.cc` -/

/-- One-argument `isValidTask(WId wId)`. -/
def isValidTask (env : WindowSystem) (wId : WId) : Bool :=
  if !env.hasWId wId then
    false
  else
    let windowType := env.windowType wId (NET.DockMask ||| NET.DesktopMask)
    if windowType = NET.WindowType.Dock ∨ windowType = NET.WindowType.Desktop then
      false
    else
      let state := env.state wId
      if state = NET.SkipTaskbar then
        false
      else
        true

/-- The `for` loop of `getScreen`, entered with the loop variable at `screen`. -/
def getScreenLoop (env : WindowSystem) (geometry : QRect) (screen : Int) : Int :=
  if screen < (env.screenCount : Int) then
    if env.intersects (env.screenGeometry screen) geometry then
      screen
    else
      getScreenLoop env geometry (screen + 1)
  else
    -1
termination_by ((env.screenCount : Int) - screen).toNat
decreasing_by omega

/-- Function `getScreen(WId wId)`. -/
def getScreen (env : WindowSystem) (wId : WId) : Int :=
  if env.screenCount = 1 then
    0
  else
    getScreenLoop env (env.frameGeometry wId) 0

/-- Three-argument `isValidTask(WId wId, int screen, bool currentDesktopOnly)`. -/
def isValidTaskOnScreen (env : WindowSystem) (wId : WId) (screen : Int)
    (currentDesktopOnly : Bool) : Bool :=
  if !isValidTask env wId then
    false
  else if getScreen env wId ≠ screen then
    false
  else if currentDesktopOnly && !env.isOnCurrentDesktop wId then
    false
  else
    true

/-- Constant `kIconLoadSize` of `getTaskInfo`. -/
def kIconLoadSize : Int := 128

/-- Function `getTaskInfo(WId wId)`. -/
def getTaskInfo (env : WindowSystem) (wId : WId) : TaskInfo :=
  TaskInfo.mk wId (env.windowClassName wId) (env.visibleName wId)
    (env.icon wId kIconLoadSize kIconLoadSize)

/-- The `for` loop of `loadTasks` over the remaining window ids, with the
vector `tasks` built so far.  The flag `currentDesktopOnly` is the default
argument that the declaration of `isValidTask` in `task_utils.h` supplies to
the call `isValidTask(wId, screen)`. -/
def loadTasksLoop (env : WindowSystem) (currentDesktopOnly : Bool) (screen : Int) :
    List WId → Array TaskInfo → Array TaskInfo
  | [], tasks => tasks
  | wId :: rest, tasks =>
    if isValidTaskOnScreen env wId screen currentDesktopOnly then
      loadTasksLoop env currentDesktopOnly screen rest (tasks.push (getTaskInfo env wId))
    else
      loadTasksLoop env currentDesktopOnly screen rest tasks

/-- Function `loadTasks(int screen)`. -/
def loadTasks (env : WindowSystem) (currentDesktopOnly : Bool) (screen : Int) :
    List TaskInfo :=
  (loadTasksLoop env currentDesktopOnly screen env.windows #[]).toList

/-! ## The configuration store (`KConfig`, `KConfigGroup`) -/

/-- Colour (`QColor`): the colour name it was built from and its alpha
channel.  Colours are only stored and returned. -/
structure QColor where
  name : String
  alphaF : Float

/-- Constructor `QColor(name)`: an opaque colour. -/
def QColor.ofName (name : String) : QColor := QColor.mk name 1.0

/-- Method `setAlphaF(alpha)`. -/
def QColor.setAlphaF (c : QColor) (alpha : Float) : QColor := { c with alphaF := alpha }

/-- Value held by one entry of a config. -/
inductive ConfigValue where
  | int (v : Int)
  | bool (v : Bool)
  | string (v : String)
  | color (v : QColor)
  | float (v : Float)

/-- Types `T` at which `readEntry` and `writeEntry` are instantiated. -/
class EntryType (T : Type) where
  /-- The stored form of a value. -/
  toValue : T → ConfigValue
  /-- The value read back from a stored form, when it has this type. -/
  ofValue : ConfigValue → Option T

instance : EntryType Int where
  toValue := ConfigValue.int
  ofValue
    | ConfigValue.int v => some v
    | _ => none

instance : EntryType Bool where
  toValue := ConfigValue.bool
  ofValue
    | ConfigValue.bool v => some v
    | _ => none

instance : EntryType String where
  toValue := ConfigValue.string
  ofValue
    | ConfigValue.string v => some v
    | _ => none

instance : EntryType QColor where
  toValue := ConfigValue.color
  ofValue
    | ConfigValue.color v => some v
    | _ => none

instance : EntryType Float where
  toValue := ConfigValue.float
  ofValue
    | ConfigValue.float v => some v
    | _ => none

/-- In-memory config (`KConfig`): a key/value store indexed by category
(group name) and key. -/
structure KConfig where
  entries : String → String → Option ConfigValue

/-- The reads `KConfigGroup group(&config, category); group.readEntry(name,
defaultValue)`. -/
def KConfig.readEntry {T : Type} [EntryType T] (config : KConfig)
    (category name : String) (defaultValue : T) : T :=
  match config.entries category name with
  | some v => (EntryType.ofValue v).getD defaultValue
  | none => defaultValue

/-- The writes `KConfigGroup group(&config, category); group.writeEntry(name,
value)`. -/
def KConfig.writeEntry {T : Type} [EntryType T] (config : KConfig)
    (category name : String) (value : T) : KConfig :=
  KConfig.mk fun c n =>
    if c = category ∧ n = name then some (EntryType.toValue value) else config.entries c n

/-! ## `multi_dock_model.h` -/

def kDefaultMinSize : Int := 48
def kDefaultMaxSize : Int := 128
def kDefaultTooltipFontSize : Int := 20
/-- Constant `kDefaultBackgroundAlpha`, a `float` in the source; it is held at
double precision here and is only stored and returned. -/
def kDefaultBackgroundAlpha : Float := 0.42
def kDefaultBackgroundColor : String := "#638abd"
def kDefaultShowBorder : Bool := true
def kDefaultBorderColor : String := "#b1c4de"
def kLargeClockFontScaleFactor : Float := 1.0

def kDefaultAutoHide : Bool := false
def kDefaultShowApplicationMenu : Bool := true
def kDefaultShowPager : Bool := false
def kDefaultShowClock : Bool := false

def kDefaultApplicationMenuName : String := "Applications"
def kDefaultApplicationMenuIcon : String := "start-here-kde"
def kDefaultUse24HourClock : Bool := true
def kDefaultClockFontScaleFactor : Float := kLargeClockFontScaleFactor

/-- Scoped enumeration `PanelPosition {Top, Bottom, Left, Right}`, held as
its underlying `int` so that `static_cast` in both directions is total. -/
structure PanelPosition where
  val : Int
  deriving DecidableEq, Repr

namespace PanelPosition

def Top : PanelPosition := PanelPosition.mk 0
def Bottom : PanelPosition := PanelPosition.mk 1
def Left : PanelPosition := PanelPosition.mk 2
def Right : PanelPosition := PanelPosition.mk 3

end PanelPosition

/-- Record `LauncherConfig`. -/
structure LauncherConfig where
  name : String
  icon : String
  command : String
  deriving DecidableEq, Repr

/-- Tuple stored per dock id in `dockConfigs_`: (dock config file path, dock
config, launchers dir path, list of launcher configs).  The config is held
through a `std::unique_ptr`, which may be null. -/
structure DockConfigTuple where
  configPath : String
  config : Option KConfig
  launchersPath : String
  launcherConfigs : List LauncherConfig

/-- Model data of `MultiDockModel`. -/
structure MultiDockModel where
  appearanceConfig_ : KConfig
  dockConfigs_ : List (Int × DockConfigTuple)
  nextDockId_ : Int

def kGeneralCategory : String := "General"
def kAutoHide : String := "autoHide"
def kPosition : String := "position"
def kScreen : String := "screen"
def kShowApplicationMenu : String := "showApplicationMenu"
def kShowClock : String := "showClock"
def kShowPager : String := "showPager"

def kBackgroundColor : String := "backgroundColor"
def kBorderColor : String := "borderColor"
def kMaximumIconSize : String := "maximumIconSize"
def kMinimumIconSize : String := "minimumIconSize"
def kShowBorder : String := "showBorder"
def kTooltipFontSize : String := "tooltipFontSize"

def kApplicationMenuCategory : String := "Application Menu"
def kIcon : String := "icon"
def kLabel : String := "label"

def kPagerCategory : String := "Pager"
def kWallpaper : String := "wallpaper"

def kClockCategory : String := "Clock"
def kUse24HourClock : String := "use24HourClock"
def kFontScaleFactor : String := "fontScaleFactor"

namespace MultiDockModel

/-- Method `dockCount()`. -/
def dockCount (m : MultiDockModel) : Int := m.dockConfigs_.length

/-- Template `appearanceProperty(category, name, defaultValue)`. -/
def appearanceProperty {T : Type} [EntryType T] (m : MultiDockModel)
    (category name : String) (defaultValue : T) : T :=
  m.appearanceConfig_.readEntry category name defaultValue

/-- Template `setAppearanceProperty(category, name, value)`. -/
def setAppearanceProperty {T : Type} [EntryType T] (m : MultiDockModel)
    (category name : String) (value : T) : MultiDockModel :=
  { m with appearanceConfig_ := m.appearanceConfig_.writeEntry category name value }

/-- The config reached by `dockConfig(dockId)`: `none` when `dockConfigs_`
has no entry for `dockId` (the const overload's `at` throws, the non-const
overload's `operator[]` inserts an entry with a null pointer) or when the
entry's pointer is null. -/
def dockConfig (m : MultiDockModel) (dockId : Int) : Option KConfig :=
  (m.dockConfigs_.lookup dockId).bind fun t => t.config

/-- The state of `dockConfigs_` after the config that the entry of `dockId`
points to has become `config`. -/
def storeDockConfig (dockId : Int) (config : KConfig) :
    List (Int × DockConfigTuple) → List (Int × DockConfigTuple)
  | [] => []
  | (k, t) :: rest =>
    if k = dockId then
      (k, { t with config := some config }) :: rest
    else
      (k, t) :: storeDockConfig dockId config rest

/-- Template `dockProperty(dockId, category, name, defaultValue)`; `none`
when there is no config to read. -/
def dockProperty {T : Type} [EntryType T] (m : MultiDockModel) (dockId : Int)
    (category name : String) (defaultValue : T) : Option T :=
  match m.dockConfig dockId with
  | some config => some (config.readEntry category name defaultValue)
  | none => none

/-- Template `setDockProperty(dockId, category, name, value)`; `none` when
there is no config to write to. -/
def setDockProperty {T : Type} [EntryType T] (m : MultiDockModel) (dockId : Int)
    (category name : String) (value : T) : Option MultiDockModel :=
  match m.dockConfig dockId with
  | some config =>
    some { m with
      dockConfigs_ :=
        storeDockConfig dockId (config.writeEntry category name value) m.dockConfigs_ }
  | none => none

def minIconSize (m : MultiDockModel) : Int :=
  m.appearanceProperty kGeneralCategory kMinimumIconSize kDefaultMinSize

def setMinIconSize (m : MultiDockModel) (value : Int) : MultiDockModel :=
  m.setAppearanceProperty kGeneralCategory kMinimumIconSize value

def maxIconSize (m : MultiDockModel) : Int :=
  m.appearanceProperty kGeneralCategory kMaximumIconSize kDefaultMaxSize

def setMaxIconSize (m : MultiDockModel) (value : Int) : MultiDockModel :=
  m.setAppearanceProperty kGeneralCategory kMaximumIconSize value

def backgroundColor (m : MultiDockModel) : QColor :=
  let defaultBackgroundColor :=
    (QColor.ofName kDefaultBackgroundColor).setAlphaF kDefaultBackgroundAlpha
  m.appearanceProperty kGeneralCategory kBackgroundColor defaultBackgroundColor

def setBackgroundColor (m : MultiDockModel) (value : QColor) : MultiDockModel :=
  m.setAppearanceProperty kGeneralCategory kBackgroundColor value

def showBorder (m : MultiDockModel) : Bool :=
  m.appearanceProperty kGeneralCategory kShowBorder kDefaultShowBorder

def setShowBorder (m : MultiDockModel) (value : Bool) : MultiDockModel :=
  m.setAppearanceProperty kGeneralCategory kShowBorder value

def borderColor (m : MultiDockModel) : QColor :=
  m.appearanceProperty kGeneralCategory kBorderColor (QColor.ofName kDefaultBorderColor)

def setBorderColor (m : MultiDockModel) (value : QColor) : MultiDockModel :=
  m.setAppearanceProperty kGeneralCategory kBorderColor value

def tooltipFontSize (m : MultiDockModel) : Int :=
  m.appearanceProperty kGeneralCategory kTooltipFontSize kDefaultTooltipFontSize

def setTooltipFontSize (m : MultiDockModel) (value : Int) : MultiDockModel :=
  m.setAppearanceProperty kGeneralCategory kTooltipFontSize value

/-- Getter `applicationMenuName()`; `i18n` is the translation function of
`KLocalizedString`. -/
def applicationMenuName (i18n : String → String) (m : MultiDockModel) : String :=
  m.appearanceProperty kApplicationMenuCategory kLabel (i18n kDefaultApplicationMenuName)

def setApplicationMenuName (m : MultiDockModel) (value : String) : MultiDockModel :=
  m.setAppearanceProperty kApplicationMenuCategory kLabel value

def applicationMenuIcon (m : MultiDockModel) : String :=
  m.appearanceProperty kApplicationMenuCategory kIcon kDefaultApplicationMenuIcon

def setApplicationMenuIcon (m : MultiDockModel) (value : String) : MultiDockModel :=
  m.setAppearanceProperty kApplicationMenuCategory kIcon value

/-- Getter `wallpaper(desktop)`; `wallpaperConfigKey` is
`ConfigHelper::wallpaperConfigKey` of `config_helper.h`. -/
def wallpaper (wallpaperConfigKey : Int → String) (m : MultiDockModel) (desktop : Int) :
    String :=
  m.appearanceProperty kPagerCategory (wallpaperConfigKey desktop) ""

/-- Setter `setWallpaper(desktop, value)`. -/
def setWallpaper (wallpaperConfigKey : Int → String) (m : MultiDockModel) (desktop : Int)
    (value : String) : MultiDockModel :=
  m.setAppearanceProperty kPagerCategory (wallpaperConfigKey desktop) value

def use24HourClock (m : MultiDockModel) : Bool :=
  m.appearanceProperty kClockCategory kUse24HourClock kDefaultUse24HourClock

def setUse24HourClock (m : MultiDockModel) (value : Bool) : MultiDockModel :=
  m.setAppearanceProperty kClockCategory kUse24HourClock value

def clockFontScaleFactor (m : MultiDockModel) : Float :=
  m.appearanceProperty kClockCategory kFontScaleFactor kDefaultClockFontScaleFactor

def setClockFontScaleFactor (m : MultiDockModel) (value : Float) : MultiDockModel :=
  m.setAppearanceProperty kClockCategory kFontScaleFactor value

def panelPosition (m : MultiDockModel) (dockId : Int) : Option PanelPosition :=
  (m.dockProperty dockId kGeneralCategory kPosition PanelPosition.Bottom.val).map
    PanelPosition.mk

def setPanelPosition (m : MultiDockModel) (dockId : Int) (value : PanelPosition) :
    Option MultiDockModel :=
  m.setDockProperty dockId kGeneralCategory kPosition value.val

def screen (m : MultiDockModel) (dockId : Int) : Option Int :=
  m.dockProperty dockId kGeneralCategory kScreen (0 : Int)

def setScreen (m : MultiDockModel) (dockId : Int) (value : Int) : Option MultiDockModel :=
  m.setDockProperty dockId kGeneralCategory kScreen value

def autoHide (m : MultiDockModel) (dockId : Int) : Option Bool :=
  m.dockProperty dockId kGeneralCategory kAutoHide kDefaultAutoHide

def setAutoHide (m : MultiDockModel) (dockId : Int) (value : Bool) : Option MultiDockModel :=
  m.setDockProperty dockId kGeneralCategory kAutoHide value

def showApplicationMenu (m : MultiDockModel) (dockId : Int) : Option Bool :=
  m.dockProperty dockId kGeneralCategory kShowApplicationMenu kDefaultShowApplicationMenu

def setShowApplicationMenu (m : MultiDockModel) (dockId : Int) (value : Bool) :
    Option MultiDockModel :=
  m.setDockProperty dockId kGeneralCategory kShowApplicationMenu value

def showPager (m : MultiDockModel) (dockId : Int) : Option Bool :=
  m.dockProperty dockId kGeneralCategory kShowPager kDefaultShowPager

def setShowPager (m : MultiDockModel) (dockId : Int) (value : Bool) : Option MultiDockModel :=
  m.setDockProperty dockId kGeneralCategory kShowPager value

def showClock (m : MultiDockModel) (dockId : Int) : Option Bool :=
  m.dockProperty dockId kGeneralCategory kShowClock kDefaultShowClock

def setShowClock (m : MultiDockModel) (dockId : Int) (value : Bool) : Option MultiDockModel :=
  m.setDockProperty dockId kGeneralCategory kShowClock value

/-- Getter `dockLaunchersPath(dockId)`; `none` when `at` throws. -/
def dockLaunchersPath (m : MultiDockModel) (dockId : Int) : Option String :=
  (m.dockConfigs_.lookup dockId).map fun t => t.launchersPath

/-- Getter `dockLauncherConfigs(dockId)`; `none` when `at` throws. -/
def dockLauncherConfigs (m : MultiDockModel) (dockId : Int) : Option (List LauncherConfig) :=
  (m.dockConfigs_.lookup dockId).map fun t => t.launcherConfigs

end MultiDockModel

/-! ## Example data and the predicates used to state the properties -/

/-- Sample answer for `QRect::intersects` used by the example desktops: two
non-empty rectangles that share a point. -/
def overlaps (a b : QRect) : Bool :=
  decide (0 < a.width ∧ 0 < a.height ∧ 0 < b.width ∧ 0 < b.height ∧
    a.x < b.x + b.width ∧ b.x < a.x + a.width ∧ a.y < b.y + b.height ∧ b.y < a.y + a.height)

/-- A two-screen desktop with four windows: 1 is a terminal that skips both the
taskbar and the pager, 2 is a file manager on the second screen and another
virtual desktop (listed twice), 3 is a dock, 4 has exactly the skip-taskbar
state. -/
def sampleDesktop : WindowSystem where
  windows := [1, 2, 3, 4, 2]
  hasWId := fun w => decide (w ∈ [1, 2, 3, 4])
  windowType := fun w _ =>
    if w = 3 then NET.WindowType.Dock else NET.WindowType.Unknown
  state := fun w =>
    if w = 1 then NET.SkipTaskbar ||| NET.SkipPager else if w = 4 then NET.SkipTaskbar else 0
  isOnCurrentDesktop := fun w => decide (w ≠ 2)
  frameGeometry := fun w =>
    if w = 2 then QRect.mk 2000 100 640 480 else QRect.mk 10 10 640 480
  windowClassName := fun w => if w = 1 then "konsole" else "dolphin"
  visibleName := fun w => if w = 1 then "Konsole" else "Dolphin"
  icon := fun w width height => [w, width.toNat, height.toNat]
  screenCount := 2
  screenGeometry := fun s => QRect.mk (1920 * s) 0 1920 1080
  intersects := overlaps

/-- The sample desktop with a single screen. -/
def singleScreenDesktop : WindowSystem := { sampleDesktop with screenCount := 1 }


namespace MultiDockModel

/-- Dock `dockId` is present in the model: `dockConfigs_` has an entry for it
and the entry holds a config. -/
def hasDock (m : MultiDockModel) (dockId : Int) : Bool :=
  (m.dockConfig dockId).isSome

/-- Every per-dock getter returns on dock `dockId` of `m2` what it returns on
dock `dockId` of `m1`. -/
def sameDockGetters (m1 m2 : MultiDockModel) (dockId : Int) : Prop :=
  m2.panelPosition dockId = m1.panelPosition dockId ∧
    m2.screen dockId = m1.screen dockId ∧
    m2.autoHide dockId = m1.autoHide dockId ∧
    m2.showApplicationMenu dockId = m1.showApplicationMenu dockId ∧
    m2.showPager dockId = m1.showPager dockId ∧
    m2.showClock dockId = m1.showClock dockId ∧
    m2.dockLaunchersPath dockId = m1.dockLaunchersPath dockId ∧
    m2.dockLauncherConfigs dockId = m1.dockLauncherConfigs dockId

/-- Every appearance getter returns on `m2` what it returns on `m1`. -/
def sameAppearanceGetters (i18n : String → String) (wallpaperConfigKey : Int → String)
    (m1 m2 : MultiDockModel) : Prop :=
  m2.minIconSize = m1.minIconSize ∧
    m2.maxIconSize = m1.maxIconSize ∧
    m2.backgroundColor = m1.backgroundColor ∧
    m2.showBorder = m1.showBorder ∧
    m2.borderColor = m1.borderColor ∧
    m2.tooltipFontSize = m1.tooltipFontSize ∧
    m2.applicationMenuName i18n = m1.applicationMenuName i18n ∧
    m2.applicationMenuIcon = m1.applicationMenuIcon ∧
    (∀ desktop, m2.wallpaper wallpaperConfigKey desktop =
      m1.wallpaper wallpaperConfigKey desktop) ∧
    m2.use24HourClock = m1.use24HourClock ∧
    m2.clockFontScaleFactor = m1.clockFontScaleFactor

/-- What a setter applied to another dock must leave alone: the per-dock
getters on `dockId`, the appearance getters and `dockCount`. -/
def sameElsewhere (i18n : String → String) (wallpaperConfigKey : Int → String)
    (m1 m2 : MultiDockModel) (dockId : Int) : Prop :=
  sameDockGetters m1 m2 dockId ∧ sameAppearanceGetters i18n wallpaperConfigKey m1 m2 ∧
    m2.dockCount = m1.dockCount

end MultiDockModel

/-- A config without entries. -/
def emptyConfig : KConfig := KConfig.mk fun _ _ => none

/-- A model with empty configs and two docks, 0 and 1. -/
def sampleModel : MultiDockModel where
  appearanceConfig_ := emptyConfig
  dockConfigs_ :=
    [(0, DockConfigTuple.mk "panel_1.conf" (some emptyConfig) "panel_1_launchers" []),
     (1, DockConfigTuple.mk "panel_2.conf" (some emptyConfig) "panel_2_launchers" [])]
  nextDockId_ := 2

/-- A model with an empty appearance config and no dock at all. -/
def docklessModel : MultiDockModel where
  appearanceConfig_ := emptyConfig
  dockConfigs_ := []
  nextDockId_ := 0

/-- Sample key function standing for `ConfigHelper::wallpaperConfigKey`. -/
def sampleWallpaperConfigKey (desktop : Int) : String :=
  "wallpaper" ++ toString desktop

/-! ## Properties of `task_utils.cc` -/

theorem getScreenLoop_spec (env : WindowSystem) (g : QRect) (screen : Int) :
    (getScreenLoop env g screen = -1 ∧
        ∀ t : Int, screen ≤ t → t < env.screenCount →
          env.intersects (env.screenGeometry t) g = false) ∨
      (screen ≤ getScreenLoop env g screen ∧
        getScreenLoop env g screen < env.screenCount ∧
        env.intersects (env.screenGeometry (getScreenLoop env g screen)) g = true ∧
        ∀ t : Int, screen ≤ t → t < getScreenLoop env g screen →
          env.intersects (env.screenGeometry t) g = false) := by
  induction screen using getScreenLoop.induct env g with
  | case1 screen hlt hI =>
    right
    rw [getScreenLoop, if_pos hlt, if_pos hI]
    exact ⟨le_refl _, hlt, hI, fun t h1 h2 => absurd h2 (not_lt.mpr h1)⟩
  | case2 screen hlt hI ih =>
    have hI' : env.intersects (env.screenGeometry screen) g = false := by simpa using hI
    rw [getScreenLoop, if_pos hlt, if_neg hI]
    rcases ih with ⟨h1, h2⟩ | ⟨h1, h2, h3, h4⟩
    · left
      refine ⟨h1, fun t ht1 ht2 => ?_⟩
      rcases eq_or_lt_of_le ht1 with rfl | hlt'
      · exact hI'
      · exact h2 t (by omega) ht2
    · right
      refine ⟨by omega, h2, h3, fun t ht1 ht2 => ?_⟩
      rcases eq_or_lt_of_le ht1 with rfl | hlt'
      · exact hI'
      · exact h4 t (by omega) ht2
  | case3 screen hge =>
    left
    rw [getScreenLoop, if_neg hge]
    exact ⟨rfl, fun t h1 h2 => absurd h2 (by omega)⟩

theorem loadTasksLoop_toList (env : WindowSystem) (c : Bool) (screen : Int)
    (ws : List WId) (tasks : Array TaskInfo) :
    (loadTasksLoop env c screen ws tasks).toList =
      tasks.toList ++
        (ws.filter fun w => isValidTaskOnScreen env w screen c).map (getTaskInfo env) := by
  induction ws generalizing tasks with
  | nil => simp [loadTasksLoop]
  | cons w rest ih =>
    by_cases hv : isValidTaskOnScreen env w screen c = true
    · simp [loadTasksLoop, hv, ih]
    · simp [loadTasksLoop, hv, ih]

theorem getScreenLoop_congr (env env' : WindowSystem) (g : QRect)
    (h1 : env'.screenCount = env.screenCount) (h2 : env'.screenGeometry = env.screenGeometry)
    (h3 : env'.intersects = env.intersects) (screen : Int) :
    getScreenLoop env' g screen = getScreenLoop env g screen := by
  induction screen using getScreenLoop.induct env g with
  | case1 screen hlt hI =>
    rw [getScreenLoop.eq_1 env' g screen, getScreenLoop.eq_1 env g screen, h1, h2, h3]
    simp only [if_pos hlt, if_pos hI]
  | case2 screen hlt hI ih =>
    rw [getScreenLoop.eq_1 env' g screen, getScreenLoop.eq_1 env g screen, h1, h2, h3]
    simp only [if_pos hlt, if_neg hI, ih]
  | case3 screen hge =>
    rw [getScreenLoop.eq_1 env' g screen, getScreenLoop.eq_1 env g screen, h1]
    simp only [if_neg hge]

theorem isValidTask_eq (env : WindowSystem) (wId : WId) :
    isValidTask env wId =
      (env.hasWId wId &&
        !decide (env.windowType wId (NET.DockMask ||| NET.DesktopMask) = NET.WindowType.Dock) &&
        !decide (env.windowType wId (NET.DockMask ||| NET.DesktopMask) = NET.WindowType.Desktop) &&
        !decide (env.state wId = NET.SkipTaskbar)) := by
  unfold isValidTask
  cases env.hasWId wId <;> simp

/-- Claim C1, evaluated on the code: window 1 of the sample desktop is known to
the window manager, its state is `SkipTaskbar | SkipPager`, so the
skip-taskbar flag is set, and `isValidTask` still returns true: the test
`state == NET::SkipTaskbar` only rejects the state that is exactly that one
flag. -/
theorem isValidTask_skipTaskbar_and_skipPager :
    sampleDesktop.hasWId 1 = true ∧
      sampleDesktop.state 1 = NET.SkipTaskbar ||| NET.SkipPager ∧
      sampleDesktop.state 1 &&& NET.SkipTaskbar = NET.SkipTaskbar ∧
      isValidTask sampleDesktop 1 = true := by
  decide

/-- Claim C2: a window whose type under the mask `DockMask | DesktopMask` is
Dock or Desktop is not a valid task, whatever its state flags are and whether
or not the window manager knows its id. -/
theorem isValidTask_dock_or_desktop (env : WindowSystem) (wId : WId)
    (h : env.windowType wId (NET.DockMask ||| NET.DesktopMask) = NET.WindowType.Dock ∨
      env.windowType wId (NET.DockMask ||| NET.DesktopMask) = NET.WindowType.Desktop) :
    isValidTask env wId = false := by
  rw [isValidTask_eq]
  rcases h with h | h <;> simp [h]

theorem isValidTask_dock_or_desktop_witness :
    sampleDesktop.windowType 3 (NET.DockMask ||| NET.DesktopMask) = NET.WindowType.Dock ∧
      isValidTask sampleDesktop 3 = false :=
  ⟨by decide, isValidTask_dock_or_desktop sampleDesktop 3 (Or.inl (by decide))⟩

/-- Claim C3: `loadTasks(screen)` is `getTaskInfo` mapped over the windows of
the window manager's list that satisfy `isValidTask(w, screen)`, in list
order; it has one entry per valid occurrence in the list, and every entry
comes from a valid window of the list. -/
theorem loadTasks_eq_filter_map (env : WindowSystem) (currentDesktopOnly : Bool)
    (screen : Int) :
    loadTasks env currentDesktopOnly screen =
        (env.windows.filter fun w =>
          isValidTaskOnScreen env w screen currentDesktopOnly).map (getTaskInfo env) ∧
      (loadTasks env currentDesktopOnly screen).length =
        env.windows.countP (fun w => isValidTaskOnScreen env w screen currentDesktopOnly) ∧
      ∀ t, t ∈ loadTasks env currentDesktopOnly screen →
        ∃ w, w ∈ env.windows ∧ isValidTaskOnScreen env w screen currentDesktopOnly = true ∧
          t = getTaskInfo env w := by
  have h : loadTasks env currentDesktopOnly screen =
      (env.windows.filter fun w =>
        isValidTaskOnScreen env w screen currentDesktopOnly).map (getTaskInfo env) := by
    unfold loadTasks
    rw [loadTasksLoop_toList]
    simp
  refine ⟨h, ?_, ?_⟩
  · rw [h, List.length_map, List.countP_eq_length_filter]
  · intro t ht
    rw [h, List.mem_map] at ht
    obtain ⟨w, hw, rfl⟩ := ht
    rw [List.mem_filter] at hw
    exact ⟨w, hw.1, hw.2, rfl⟩

theorem loadTasks_eq_filter_map_witness :
    sampleDesktop.windows = [1, 2, 3, 4, 2] ∧
      loadTasks sampleDesktop false 1 =
        [getTaskInfo sampleDesktop 2, getTaskInfo sampleDesktop 2] :=
  ⟨rfl, (loadTasks_eq_filter_map sampleDesktop false 1).1.trans (by
    simp [sampleDesktop, isValidTaskOnScreen, isValidTask, getScreen, getScreenLoop, overlaps,
      NET.SkipTaskbar, NET.SkipPager])⟩

/-- Claim C4: with more than one screen, if some screen index in
`[0, screenCount)` has a geometry that intersects the window's frame geometry
then `getScreen` returns the lowest such index, and `getScreen` returns -1
exactly when no screen intersects the frame geometry. -/
theorem getScreen_lowest_intersecting (env : WindowSystem) (wId : WId)
    (h : 1 < env.screenCount) :
    ((∃ s : Int, 0 ≤ s ∧ s < env.screenCount ∧
          env.intersects (env.screenGeometry s) (env.frameGeometry wId) = true) →
        0 ≤ getScreen env wId ∧ getScreen env wId < env.screenCount ∧
          env.intersects (env.screenGeometry (getScreen env wId)) (env.frameGeometry wId) =
            true ∧
          ∀ t : Int, 0 ≤ t → t < getScreen env wId →
            env.intersects (env.screenGeometry t) (env.frameGeometry wId) = false) ∧
      (getScreen env wId = -1 ↔
        ∀ s : Int, 0 ≤ s → s < env.screenCount →
          env.intersects (env.screenGeometry s) (env.frameGeometry wId) = false) := by
  have hne : env.screenCount ≠ 1 := by omega
  have hg : getScreen env wId = getScreenLoop env (env.frameGeometry wId) 0 := by
    unfold getScreen
    rw [if_neg hne]
  rw [hg]
  rcases getScreenLoop_spec env (env.frameGeometry wId) 0 with ⟨h1, h2⟩ | ⟨h1, h2, h3, h4⟩
  · refine ⟨?_, ?_⟩
    · rintro ⟨s, hs0, hs1, hs2⟩
      rw [h2 s hs0 hs1] at hs2
      exact absurd hs2 (by decide)
    · exact ⟨fun _ => h2, fun _ => h1⟩
  · refine ⟨fun _ => ⟨h1, h2, h3, h4⟩, ?_⟩
    constructor
    · intro hm
      omega
    · intro hall
      rw [hall _ h1 h2] at h3
      exact absurd h3 (by decide)

theorem getScreen_lowest_intersecting_witness :
    1 < sampleDesktop.screenCount ∧ getScreen sampleDesktop 2 = 1 ∧
      getScreen sampleDesktop 2 ≠ -1 := by
  have h := getScreen_lowest_intersecting sampleDesktop 2 (by decide)
  have h1 := h.1 ⟨1, by decide, by decide, by decide⟩
  have e0 : sampleDesktop.intersects (sampleDesktop.screenGeometry 0)
      (sampleDesktop.frameGeometry 2) = false := by decide
  have e : getScreen sampleDesktop 2 = 1 := by
    have hlt : getScreen sampleDesktop 2 < 2 := h1.2.1
    have hne : getScreen sampleDesktop 2 ≠ 0 := by
      intro h0
      have := h1.2.2.1
      rw [h0, e0] at this
      exact absurd this (by decide)
    omega
  exact ⟨by decide, e, by omega⟩

/-- Claim C8: `isValidTask(wId)` is true if and only if the window manager
knows the id, the window type under `DockMask | DesktopMask` is neither Dock
nor Desktop, and the state value differs from the single flag `SkipTaskbar`;
in particular it is false for an id the window manager does not know. -/
theorem isValidTask_iff (env : WindowSystem) (wId : WId) :
    (isValidTask env wId = true ↔
        env.hasWId wId = true ∧
          env.windowType wId (NET.DockMask ||| NET.DesktopMask) ≠ NET.WindowType.Dock ∧
          env.windowType wId (NET.DockMask ||| NET.DesktopMask) ≠ NET.WindowType.Desktop ∧
          env.state wId ≠ NET.SkipTaskbar) ∧
      (env.hasWId wId = false → isValidTask env wId = false) := by
  rw [isValidTask_eq]
  constructor
  · simp [and_assoc]
  · intro h
    simp [h]

theorem isValidTask_iff_witness :
    sampleDesktop.hasWId 7 = false ∧ isValidTask sampleDesktop 7 = false ∧
      isValidTask sampleDesktop 2 = true :=
  ⟨by decide, (isValidTask_iff sampleDesktop 7).2 (by decide),
    (isValidTask_iff sampleDesktop 2).1.mpr (by decide)⟩

/-- Claim C9: the three-argument `isValidTask` is the conjunction of
`isValidTask(wId)`, `getScreen(wId) == screen` and `!currentDesktopOnly ||
isOnCurrentDesktop`; hence it implies `isValidTask(wId)`, and with
`currentDesktopOnly = false` replacing the virtual-desktop answer of the
window manager by any other leaves the result unchanged. -/
theorem isValidTaskOnScreen_eq (env : WindowSystem) (wId : WId) (screen : Int)
    (currentDesktopOnly : Bool) :
    isValidTaskOnScreen env wId screen currentDesktopOnly =
        (isValidTask env wId && decide (getScreen env wId = screen) &&
          (!currentDesktopOnly || env.isOnCurrentDesktop wId)) ∧
      (isValidTaskOnScreen env wId screen currentDesktopOnly = true →
        isValidTask env wId = true) ∧
      (∀ onCurrentDesktop : WId → Bool,
        isValidTaskOnScreen { env with isOnCurrentDesktop := onCurrentDesktop } wId screen
            false =
          isValidTaskOnScreen env wId screen false) := by
  have key : ∀ (e : WindowSystem) (c : Bool), isValidTaskOnScreen e wId screen c =
      (isValidTask e wId && decide (getScreen e wId = screen) &&
        (!c || e.isOnCurrentDesktop wId)) := by
    intro e c
    unfold isValidTaskOnScreen
    cases isValidTask e wId <;> cases c <;> cases e.isOnCurrentDesktop wId <;>
      by_cases hs : getScreen e wId = screen <;> simp [hs]
  refine ⟨key env currentDesktopOnly, ?_, ?_⟩
  · rw [key]
    intro h
    simp at h
    exact h.1.1
  · intro f
    rw [key, key]
    have h1 : isValidTask { env with isOnCurrentDesktop := f } wId = isValidTask env wId := rfl
    have h2 : getScreen { env with isOnCurrentDesktop := f } wId = getScreen env wId := by
      unfold getScreen
      rw [getScreenLoop_congr env { env with isOnCurrentDesktop := f } _ rfl rfl rfl]
    simp [h1, h2]

theorem isValidTaskOnScreen_eq_witness :
    sampleDesktop.isOnCurrentDesktop 2 = false ∧
      isValidTaskOnScreen sampleDesktop 2 1 true = false ∧
      isValidTaskOnScreen sampleDesktop 2 1 false = true := by
  have e : getScreen sampleDesktop 2 = 1 := by
    simp [getScreen, sampleDesktop, getScreenLoop, overlaps]
  refine ⟨by decide, ?_, ?_⟩
  · rw [(isValidTaskOnScreen_eq sampleDesktop 2 1 true).1, e]
    decide
  · rw [(isValidTaskOnScreen_eq sampleDesktop 2 1 false).1, e]
    decide

/-- Claim C10: `getScreen` returns a value between -1 and `screenCount - 1`,
and on a desktop with exactly one screen it returns 0, hence never -1,
whatever the window's frame geometry is. -/
theorem getScreen_range (env : WindowSystem) (wId : WId) :
    -1 ≤ getScreen env wId ∧ getScreen env wId ≤ (env.screenCount : Int) - 1 ∧
      (env.screenCount = 1 → getScreen env wId = 0 ∧ getScreen env wId ≠ -1) := by
  refine ⟨?_, ?_, ?_⟩
  · unfold getScreen
    split
    · decide
    · rcases getScreenLoop_spec env (env.frameGeometry wId) 0 with ⟨h1, _⟩ | ⟨h1, _⟩ <;> omega
  · unfold getScreen
    split
    · omega
    · rcases getScreenLoop_spec env (env.frameGeometry wId) 0 with ⟨h1, _⟩ | ⟨_, h2, _⟩ <;> omega
  · intro h
    unfold getScreen
    rw [if_pos h]
    decide

theorem getScreen_range_witness :
    singleScreenDesktop.intersects (singleScreenDesktop.screenGeometry 0)
        (singleScreenDesktop.frameGeometry 2) = false ∧
      getScreen singleScreenDesktop 2 = 0 :=
  ⟨by decide, ((getScreen_range singleScreenDesktop 2).2.2 rfl).1⟩

/-! ## Properties of the configuration model -/

theorem readEntry_writeEntry_same {T : Type} [EntryType T] (config : KConfig)
    (category name : String) (value defaultValue : T)
    (h : EntryType.ofValue (EntryType.toValue value) = some value) :
    (config.writeEntry category name value).readEntry category name defaultValue = value := by
  simp [KConfig.readEntry, KConfig.writeEntry, h]

theorem readEntry_writeEntry_other {T U : Type} [EntryType T] [EntryType U] (config : KConfig)
    (category name category2 name2 : String) (value : T) (defaultValue : U)
    (h : ¬(category2 = category ∧ name2 = name)) :
    (config.writeEntry category name value).readEntry category2 name2 defaultValue =
      config.readEntry category2 name2 defaultValue := by
  simp [KConfig.readEntry, KConfig.writeEntry, h]

theorem readEntry_of_none {T : Type} [EntryType T] (config : KConfig)
    (category name : String) (defaultValue : T)
    (h : config.entries category name = none) :
    config.readEntry category name defaultValue = defaultValue := by
  simp [KConfig.readEntry, h]

namespace MultiDockModel

theorem lookup_storeDockConfig_same (dockId : Int) (config : KConfig)
    (l : List (Int × DockConfigTuple)) :
    (storeDockConfig dockId config l).lookup dockId =
      (l.lookup dockId).map fun t => { t with config := some config } := by
  induction l with
  | nil => rfl
  | cons p rest ih =>
    obtain ⟨k, t⟩ := p
    by_cases hk : k = dockId
    · subst hk
      simp [storeDockConfig, List.lookup]
    · have hk' : (dockId == k) = false := by
        simp
        exact fun h => hk h.symm
      simp [storeDockConfig, List.lookup, hk, hk', ih]

theorem lookup_storeDockConfig_other (dockId dockId2 : Int) (config : KConfig)
    (l : List (Int × DockConfigTuple)) (h : dockId2 ≠ dockId) :
    (storeDockConfig dockId config l).lookup dockId2 = l.lookup dockId2 := by
  induction l with
  | nil => rfl
  | cons p rest ih =>
    obtain ⟨k, t⟩ := p
    by_cases hk : k = dockId
    · subst hk
      have hk' : (dockId2 == k) = false := by simpa using h
      simp [storeDockConfig, List.lookup, hk']
    · by_cases h2 : dockId2 = k
      · subst h2
        simp [storeDockConfig, List.lookup, hk]
      · have hk' : (dockId2 == k) = false := by simpa using h2
        simp [storeDockConfig, List.lookup, hk, hk', ih]

theorem length_storeDockConfig (dockId : Int) (config : KConfig)
    (l : List (Int × DockConfigTuple)) :
    (storeDockConfig dockId config l).length = l.length := by
  induction l with
  | nil => rfl
  | cons p rest ih =>
    obtain ⟨k, t⟩ := p
    by_cases hk : k = dockId <;> simp [storeDockConfig, hk, ih]

/-- Effect of `setDockProperty` on a dock that has a config. -/
theorem setDockProperty_spec {T : Type} [EntryType T] (m : MultiDockModel) (dockId : Int)
    (category name : String) (value : T) (config : KConfig)
    (h : m.dockConfig dockId = some config) :
    ∃ m2, m.setDockProperty dockId category name value = some m2 ∧
      m2.dockConfig dockId = some (config.writeEntry category name value) ∧
      (∀ d, d ≠ dockId → m2.dockConfig d = m.dockConfig d) ∧
      (∀ d, m2.dockLaunchersPath d = m.dockLaunchersPath d) ∧
      (∀ d, m2.dockLauncherConfigs d = m.dockLauncherConfigs d) ∧
      m2.appearanceConfig_ = m.appearanceConfig_ ∧
      m2.dockCount = m.dockCount := by
  refine ⟨{ m with
      dockConfigs_ :=
        storeDockConfig dockId (config.writeEntry category name value) m.dockConfigs_ },
    by simp [setDockProperty, h], ?_, ?_, ?_, ?_, rfl, ?_⟩
  · unfold dockConfig at h ⊢
    simp only [lookup_storeDockConfig_same]
    cases hl : m.dockConfigs_.lookup dockId with
    | none => simp [hl] at h
    | some t => rfl
  · intro d hd
    unfold dockConfig
    simp only [lookup_storeDockConfig_other _ _ _ _ hd]
  · intro d
    unfold dockLaunchersPath
    by_cases hd : d = dockId
    · subst hd
      simp only [lookup_storeDockConfig_same]
      cases m.dockConfigs_.lookup d <;> rfl
    · simp only [lookup_storeDockConfig_other _ _ _ _ hd]
  · intro d
    unfold dockLauncherConfigs
    by_cases hd : d = dockId
    · subst hd
      simp only [lookup_storeDockConfig_same]
      cases m.dockConfigs_.lookup d <;> rfl
    · simp only [lookup_storeDockConfig_other _ _ _ _ hd]
  · simp [dockCount, length_storeDockConfig]

end MultiDockModel

namespace MultiDockModel

/-- What the per-dock getters see after `setDockProperty` on a dock that has a
config. -/
theorem setDockProperty_getters {T : Type} [EntryType T] (m : MultiDockModel) (dockId : Int)
    (category name : String) (value : T) (h : m.hasDock dockId = true) :
    ∃ m2, m.setDockProperty dockId category name value = some m2 ∧
      (∀ defaultValue : T, EntryType.ofValue (EntryType.toValue value) = some value →
        m2.dockProperty dockId category name defaultValue = some value) ∧
      (∀ (U : Type) [EntryType U] (category2 name2 : String) (defaultValue : U),
        ¬(category2 = category ∧ name2 = name) →
        m2.dockProperty dockId category2 name2 defaultValue =
          m.dockProperty dockId category2 name2 defaultValue) ∧
      (∀ (U : Type) [EntryType U] (d : Int) (category2 name2 : String) (defaultValue : U),
        d ≠ dockId →
        m2.dockProperty d category2 name2 defaultValue =
          m.dockProperty d category2 name2 defaultValue) ∧
      (∀ d, m2.dockLaunchersPath d = m.dockLaunchersPath d) ∧
      (∀ d, m2.dockLauncherConfigs d = m.dockLauncherConfigs d) ∧
      m2.appearanceConfig_ = m.appearanceConfig_ ∧
      m2.dockCount = m.dockCount := by
  unfold hasDock at h
  obtain ⟨config, hc⟩ := Option.isSome_iff_exists.mp h
  obtain ⟨m2, h1, h2, h3, h4, h5, h6, h7⟩ :=
    setDockProperty_spec m dockId category name value config hc
  refine ⟨m2, h1, ?_, ?_, ?_, h4, h5, h6, h7⟩
  · intro dv hv
    simp only [dockProperty, h2]
    rw [readEntry_writeEntry_same _ _ _ _ _ hv]
  · intro U _ c2 n2 dv hne
    simp only [dockProperty, h2, hc]
    rw [readEntry_writeEntry_other _ _ _ _ _ _ _ hne]
  · intro U _ d c2 n2 dv hd
    simp only [dockProperty, h3 d hd]

theorem appearanceProperty_set_same {T : Type} [EntryType T] (m : MultiDockModel)
    (category name : String) (value defaultValue : T)
    (h : EntryType.ofValue (EntryType.toValue value) = some value) :
    (m.setAppearanceProperty category name value).appearanceProperty category name
      defaultValue = value :=
  readEntry_writeEntry_same _ _ _ _ _ h

theorem sameAppearanceGetters_of_eq (i18n : String → String)
    (wallpaperConfigKey : Int → String) (m1 m2 : MultiDockModel)
    (h : m2.appearanceConfig_ = m1.appearanceConfig_) :
    sameAppearanceGetters i18n wallpaperConfigKey m1 m2 := by
  simp [sameAppearanceGetters, minIconSize, maxIconSize, backgroundColor, showBorder,
    borderColor, tooltipFontSize, applicationMenuName, applicationMenuIcon, wallpaper,
    use24HourClock, clockFontScaleFactor, appearanceProperty, h]

end MultiDockModel

open MultiDockModel

/-- Claim C5: for every integer- or boolean-valued setting, the getter called
after the setter with value `v` returns `v`.  For every model, with or without
docks, this holds for the appearance settings `minIconSize`, `maxIconSize`,
`tooltipFontSize`, `showBorder` and `use24HourClock`; and for every dock id
present in the model it holds for `screen`, `autoHide`, `showApplicationMenu`,
`showPager`, `showClock` and `panelPosition` (for every position value, so
for each of Top, Bottom, Left, Right). -/
theorem setter_then_getter (m : MultiDockModel) :
    ((∀ v, (m.setMinIconSize v).minIconSize = v) ∧
        (∀ v, (m.setMaxIconSize v).maxIconSize = v) ∧
        (∀ v, (m.setTooltipFontSize v).tooltipFontSize = v) ∧
        (∀ v, (m.setShowBorder v).showBorder = v) ∧
        (∀ v, (m.setUse24HourClock v).use24HourClock = v)) ∧
      ∀ dockId, m.hasDock dockId = true →
        (∀ v, ∃ m2, m.setScreen dockId v = some m2 ∧ m2.screen dockId = some v) ∧
        (∀ v, ∃ m2, m.setAutoHide dockId v = some m2 ∧ m2.autoHide dockId = some v) ∧
        (∀ v, ∃ m2, m.setShowApplicationMenu dockId v = some m2 ∧
          m2.showApplicationMenu dockId = some v) ∧
        (∀ v, ∃ m2, m.setShowPager dockId v = some m2 ∧ m2.showPager dockId = some v) ∧
        (∀ v, ∃ m2, m.setShowClock dockId v = some m2 ∧ m2.showClock dockId = some v) ∧
        (∀ p, ∃ m2, m.setPanelPosition dockId p = some m2 ∧
          m2.panelPosition dockId = some p) ∧
        (∀ p, p ∈ [PanelPosition.Top, PanelPosition.Bottom, PanelPosition.Left,
            PanelPosition.Right] →
          ∃ m2, m.setPanelPosition dockId p = some m2 ∧
            m2.panelPosition dockId = some p) := by
  refine ⟨⟨?_, ?_, ?_, ?_, ?_⟩, fun dockId h => ?_⟩
  · intro v
    exact appearanceProperty_set_same m _ _ v _ rfl
  · intro v
    exact appearanceProperty_set_same m _ _ v _ rfl
  · intro v
    exact appearanceProperty_set_same m _ _ v _ rfl
  · intro v
    exact appearanceProperty_set_same m _ _ v _ rfl
  · intro v
    exact appearanceProperty_set_same m _ _ v _ rfl
  · have hp : ∀ p, ∃ m2, m.setPanelPosition dockId p = some m2 ∧
        m2.panelPosition dockId = some p := by
      intro p
      obtain ⟨m2, h1, h2, _⟩ :=
        setDockProperty_getters m dockId kGeneralCategory kPosition p.val h
      exact ⟨m2, h1, by simp [panelPosition, h2 PanelPosition.Bottom.val rfl]⟩
    refine ⟨?_, ?_, ?_, ?_, ?_, hp, fun p _ => hp p⟩
    · intro v
      obtain ⟨m2, h1, h2, _⟩ := setDockProperty_getters m dockId kGeneralCategory kScreen v h
      exact ⟨m2, h1, h2 _ rfl⟩
    · intro v
      obtain ⟨m2, h1, h2, _⟩ := setDockProperty_getters m dockId kGeneralCategory kAutoHide v h
      exact ⟨m2, h1, h2 _ rfl⟩
    · intro v
      obtain ⟨m2, h1, h2, _⟩ :=
        setDockProperty_getters m dockId kGeneralCategory kShowApplicationMenu v h
      exact ⟨m2, h1, h2 _ rfl⟩
    · intro v
      obtain ⟨m2, h1, h2, _⟩ :=
        setDockProperty_getters m dockId kGeneralCategory kShowPager v h
      exact ⟨m2, h1, h2 _ rfl⟩
    · intro v
      obtain ⟨m2, h1, h2, _⟩ :=
        setDockProperty_getters m dockId kGeneralCategory kShowClock v h
      exact ⟨m2, h1, h2 _ rfl⟩

theorem setter_then_getter_witness :
    docklessModel.dockCount = 0 ∧
      (docklessModel.setMinIconSize 64).minIconSize = 64 ∧
      (docklessModel.setShowBorder false).showBorder = false ∧
      sampleModel.hasDock 1 = true ∧
      (∃ m2, sampleModel.setScreen 1 3 = some m2 ∧ m2.screen 1 = some 3) ∧
      ∃ m2, sampleModel.setPanelPosition 1 PanelPosition.Left = some m2 ∧
        m2.panelPosition 1 = some PanelPosition.Left :=
  ⟨rfl, (setter_then_getter docklessModel).1.1 64,
    (setter_then_getter docklessModel).1.2.2.2.1 false, by decide,
    ((setter_then_getter sampleModel).2 1 (by decide)).1 3,
    ((setter_then_getter sampleModel).2 1 (by decide)).2.2.2.2.2.1 PanelPosition.Left⟩

/-- Claim C6: a getter whose (category, key) has no entry in the store returns
the declared default: `minIconSize` 48, `maxIconSize` 128, `tooltipFontSize`
20, `showBorder` true, `use24HourClock` true, `applicationMenuIcon`
"start-here-kde", `wallpaper(desktop)` the empty string, for every model, with
or without docks; and for every dock present in the model, with its config,
`panelPosition` Bottom, `screen` 0, `autoHide` false, `showApplicationMenu`
true, `showPager` false, `showClock` false. -/
theorem getters_default (wallpaperConfigKey : Int → String) (m : MultiDockModel) :
    ((m.appearanceConfig_.entries kGeneralCategory kMinimumIconSize = none →
          m.minIconSize = 48) ∧
        (m.appearanceConfig_.entries kGeneralCategory kMaximumIconSize = none →
          m.maxIconSize = 128) ∧
        (m.appearanceConfig_.entries kGeneralCategory kTooltipFontSize = none →
          m.tooltipFontSize = 20) ∧
        (m.appearanceConfig_.entries kGeneralCategory kShowBorder = none →
          m.showBorder = true) ∧
        (m.appearanceConfig_.entries kClockCategory kUse24HourClock = none →
          m.use24HourClock = true) ∧
        (m.appearanceConfig_.entries kApplicationMenuCategory kIcon = none →
          m.applicationMenuIcon = "start-here-kde") ∧
        (∀ desktop,
          m.appearanceConfig_.entries kPagerCategory (wallpaperConfigKey desktop) = none →
          m.wallpaper wallpaperConfigKey desktop = "")) ∧
      ∀ dockId config, m.dockConfig dockId = some config →
        (config.entries kGeneralCategory kPosition = none →
          m.panelPosition dockId = some PanelPosition.Bottom) ∧
        (config.entries kGeneralCategory kScreen = none → m.screen dockId = some 0) ∧
        (config.entries kGeneralCategory kAutoHide = none →
          m.autoHide dockId = some false) ∧
        (config.entries kGeneralCategory kShowApplicationMenu = none →
          m.showApplicationMenu dockId = some true) ∧
        (config.entries kGeneralCategory kShowPager = none →
          m.showPager dockId = some false) ∧
        (config.entries kGeneralCategory kShowClock = none →
          m.showClock dockId = some false) := by
  refine ⟨⟨?_, ?_, ?_, ?_, ?_, ?_, ?_⟩, fun dockId config h => ⟨?_, ?_, ?_, ?_, ?_, ?_⟩⟩
  · exact fun hn => readEntry_of_none _ _ _ _ hn
  · exact fun hn => readEntry_of_none _ _ _ _ hn
  · exact fun hn => readEntry_of_none _ _ _ _ hn
  · exact fun hn => readEntry_of_none _ _ _ _ hn
  · exact fun hn => readEntry_of_none _ _ _ _ hn
  · exact fun hn => readEntry_of_none _ _ _ _ hn
  · exact fun desktop hn => readEntry_of_none _ _ _ _ hn
  · intro hn
    simp only [panelPosition, dockProperty, h, readEntry_of_none _ _ _ _ hn]
    rfl
  · intro hn
    simp only [screen, dockProperty, h, readEntry_of_none _ _ _ _ hn]
  · intro hn
    simp only [autoHide, dockProperty, h, readEntry_of_none _ _ _ _ hn]
    rfl
  · intro hn
    simp only [showApplicationMenu, dockProperty, h, readEntry_of_none _ _ _ _ hn]
    rfl
  · intro hn
    simp only [showPager, dockProperty, h, readEntry_of_none _ _ _ _ hn]
    rfl
  · intro hn
    simp only [showClock, dockProperty, h, readEntry_of_none _ _ _ _ hn]
    rfl

theorem getters_default_witness :
    docklessModel.dockCount = 0 ∧
      docklessModel.minIconSize = 48 ∧
      docklessModel.applicationMenuIcon = "start-here-kde" ∧
      docklessModel.wallpaper sampleWallpaperConfigKey 2 = "" ∧
      sampleModel.dockConfig 0 = some emptyConfig ∧
      sampleModel.panelPosition 0 = some PanelPosition.Bottom ∧
      sampleModel.showApplicationMenu 0 = some true :=
  ⟨rfl, (getters_default sampleWallpaperConfigKey docklessModel).1.1 rfl,
    (getters_default sampleWallpaperConfigKey docklessModel).1.2.2.2.2.2.1 rfl,
    (getters_default sampleWallpaperConfigKey docklessModel).1.2.2.2.2.2.2 2 rfl, rfl,
    ((getters_default sampleWallpaperConfigKey sampleModel).2 0 emptyConfig rfl).1 rfl,
    ((getters_default sampleWallpaperConfigKey sampleModel).2 0 emptyConfig rfl).2.2.2.1 rfl⟩

/-- Frame of `setDockProperty` in the General category: another dock, the
appearance config, the number of docks and the other keys of the same dock. -/
theorem setDockProperty_frame {T : Type} [EntryType T] (i18n : String → String)
    (wallpaperConfigKey : Int → String) (m : MultiDockModel) (d d2 : Int) (name : String)
    (value : T) (hd : m.hasDock d = true) (hne : d ≠ d2) :
    ∃ m2, m.setDockProperty d kGeneralCategory name value = some m2 ∧
      sameElsewhere i18n wallpaperConfigKey m m2 d2 ∧
      (name ≠ kPosition → m2.panelPosition d = m.panelPosition d) ∧
      (name ≠ kScreen → m2.screen d = m.screen d) ∧
      (name ≠ kAutoHide → m2.autoHide d = m.autoHide d) ∧
      (name ≠ kShowApplicationMenu → m2.showApplicationMenu d = m.showApplicationMenu d) ∧
      (name ≠ kShowPager → m2.showPager d = m.showPager d) ∧
      (name ≠ kShowClock → m2.showClock d = m.showClock d) ∧
      m2.dockLaunchersPath d = m.dockLaunchersPath d ∧
      m2.dockLauncherConfigs d = m.dockLauncherConfigs d := by
  obtain ⟨m2, h1, _, hkey, hdock, hlp, hlc, hA, hcount⟩ :=
    setDockProperty_getters m d kGeneralCategory name value hd
  have hne2 : d2 ≠ d := fun h => hne h.symm
  have hk : ∀ (U : Type) [EntryType U] (name2 : String) (dv : U), name ≠ name2 →
      m2.dockProperty d kGeneralCategory name2 dv = m.dockProperty d kGeneralCategory name2 dv :=
    fun U _ name2 dv hn => hkey U kGeneralCategory name2 dv (fun h => hn h.2.symm)
  refine ⟨m2, h1, ⟨⟨?_, ?_, ?_, ?_, ?_, ?_, hlp d2, hlc d2⟩,
    sameAppearanceGetters_of_eq i18n wallpaperConfigKey m m2 hA, hcount⟩,
    ?_, ?_, ?_, ?_, ?_, ?_, hlp d, hlc d⟩
  · simp only [panelPosition, hdock _ d2 _ _ _ hne2]
  · simp only [screen, hdock _ d2 _ _ _ hne2]
  · simp only [autoHide, hdock _ d2 _ _ _ hne2]
  · simp only [showApplicationMenu, hdock _ d2 _ _ _ hne2]
  · simp only [showPager, hdock _ d2 _ _ _ hne2]
  · simp only [showClock, hdock _ d2 _ _ _ hne2]
  · intro hn
    simp only [panelPosition, hk _ _ _ hn]
  · intro hn
    simp only [screen, hk _ _ _ hn]
  · intro hn
    simp only [autoHide, hk _ _ _ hn]
  · intro hn
    simp only [showApplicationMenu, hk _ _ _ hn]
  · intro hn
    simp only [showPager, hk _ _ _ hn]
  · intro hn
    simp only [showClock, hk _ _ _ hn]

/-- Claim C7: a per-dock setter applied to a dock `d` present in the model
succeeds and leaves unchanged every per-dock getter on any other dock `d2`,
every appearance getter, `dockCount`, and every other per-dock getter on `d`. -/
theorem dock_setters_frame (i18n : String → String) (wallpaperConfigKey : Int → String)
    (m : MultiDockModel) (d d2 : Int) (hd : m.hasDock d = true) (hne : d ≠ d2) :
    (∀ v, ∃ m2, m.setPanelPosition d v = some m2 ∧
        sameElsewhere i18n wallpaperConfigKey m m2 d2 ∧
        m2.screen d = m.screen d ∧ m2.autoHide d = m.autoHide d ∧
        m2.showApplicationMenu d = m.showApplicationMenu d ∧
        m2.showPager d = m.showPager d ∧ m2.showClock d = m.showClock d ∧
        m2.dockLaunchersPath d = m.dockLaunchersPath d ∧
        m2.dockLauncherConfigs d = m.dockLauncherConfigs d) ∧
      (∀ v, ∃ m2, m.setScreen d v = some m2 ∧
        sameElsewhere i18n wallpaperConfigKey m m2 d2 ∧
        m2.panelPosition d = m.panelPosition d ∧ m2.autoHide d = m.autoHide d ∧
        m2.showApplicationMenu d = m.showApplicationMenu d ∧
        m2.showPager d = m.showPager d ∧ m2.showClock d = m.showClock d ∧
        m2.dockLaunchersPath d = m.dockLaunchersPath d ∧
        m2.dockLauncherConfigs d = m.dockLauncherConfigs d) ∧
      (∀ v, ∃ m2, m.setAutoHide d v = some m2 ∧
        sameElsewhere i18n wallpaperConfigKey m m2 d2 ∧
        m2.panelPosition d = m.panelPosition d ∧ m2.screen d = m.screen d ∧
        m2.showApplicationMenu d = m.showApplicationMenu d ∧
        m2.showPager d = m.showPager d ∧ m2.showClock d = m.showClock d ∧
        m2.dockLaunchersPath d = m.dockLaunchersPath d ∧
        m2.dockLauncherConfigs d = m.dockLauncherConfigs d) ∧
      (∀ v, ∃ m2, m.setShowApplicationMenu d v = some m2 ∧
        sameElsewhere i18n wallpaperConfigKey m m2 d2 ∧
        m2.panelPosition d = m.panelPosition d ∧ m2.screen d = m.screen d ∧
        m2.autoHide d = m.autoHide d ∧
        m2.showPager d = m.showPager d ∧ m2.showClock d = m.showClock d ∧
        m2.dockLaunchersPath d = m.dockLaunchersPath d ∧
        m2.dockLauncherConfigs d = m.dockLauncherConfigs d) ∧
      (∀ v, ∃ m2, m.setShowPager d v = some m2 ∧
        sameElsewhere i18n wallpaperConfigKey m m2 d2 ∧
        m2.panelPosition d = m.panelPosition d ∧ m2.screen d = m.screen d ∧
        m2.autoHide d = m.autoHide d ∧
        m2.showApplicationMenu d = m.showApplicationMenu d ∧ m2.showClock d = m.showClock d ∧
        m2.dockLaunchersPath d = m.dockLaunchersPath d ∧
        m2.dockLauncherConfigs d = m.dockLauncherConfigs d) ∧
      (∀ v, ∃ m2, m.setShowClock d v = some m2 ∧
        sameElsewhere i18n wallpaperConfigKey m m2 d2 ∧
        m2.panelPosition d = m.panelPosition d ∧ m2.screen d = m.screen d ∧
        m2.autoHide d = m.autoHide d ∧
        m2.showApplicationMenu d = m.showApplicationMenu d ∧ m2.showPager d = m.showPager d ∧
        m2.dockLaunchersPath d = m.dockLaunchersPath d ∧
        m2.dockLauncherConfigs d = m.dockLauncherConfigs d) := by
  refine ⟨?_, ?_, ?_, ?_, ?_, ?_⟩
  · intro v
    obtain ⟨m2, h0, hE, _, h2, h3, h4, h5, h6, h7, h8⟩ :=
      setDockProperty_frame i18n wallpaperConfigKey m d d2 kPosition v.val hd hne
    exact ⟨m2, h0, hE, h2 (by decide), h3 (by decide), h4 (by decide), h5 (by decide),
      h6 (by decide), h7, h8⟩
  · intro v
    obtain ⟨m2, h0, hE, h1, _, h3, h4, h5, h6, h7, h8⟩ :=
      setDockProperty_frame i18n wallpaperConfigKey m d d2 kScreen v hd hne
    exact ⟨m2, h0, hE, h1 (by decide), h3 (by decide), h4 (by decide), h5 (by decide),
      h6 (by decide), h7, h8⟩
  · intro v
    obtain ⟨m2, h0, hE, h1, h2, _, h4, h5, h6, h7, h8⟩ :=
      setDockProperty_frame i18n wallpaperConfigKey m d d2 kAutoHide v hd hne
    exact ⟨m2, h0, hE, h1 (by decide), h2 (by decide), h4 (by decide), h5 (by decide),
      h6 (by decide), h7, h8⟩
  · intro v
    obtain ⟨m2, h0, hE, h1, h2, h3, _, h5, h6, h7, h8⟩ :=
      setDockProperty_frame i18n wallpaperConfigKey m d d2 kShowApplicationMenu v hd hne
    exact ⟨m2, h0, hE, h1 (by decide), h2 (by decide), h3 (by decide), h5 (by decide),
      h6 (by decide), h7, h8⟩
  · intro v
    obtain ⟨m2, h0, hE, h1, h2, h3, h4, _, h6, h7, h8⟩ :=
      setDockProperty_frame i18n wallpaperConfigKey m d d2 kShowPager v hd hne
    exact ⟨m2, h0, hE, h1 (by decide), h2 (by decide), h3 (by decide), h4 (by decide),
      h6 (by decide), h7, h8⟩
  · intro v
    obtain ⟨m2, h0, hE, h1, h2, h3, h4, h5, _, h7, h8⟩ :=
      setDockProperty_frame i18n wallpaperConfigKey m d d2 kShowClock v hd hne
    exact ⟨m2, h0, hE, h1 (by decide), h2 (by decide), h3 (by decide), h4 (by decide),
      h5 (by decide), h7, h8⟩

theorem dock_setters_frame_witness :
    sampleModel.hasDock 0 = true ∧ sampleModel.hasDock 1 = true ∧ (0 : Int) ≠ 1 ∧
      ∃ m2, sampleModel.setAutoHide 0 true = some m2 ∧
        sameElsewhere id sampleWallpaperConfigKey sampleModel m2 1 ∧
        m2.showPager 0 = sampleModel.showPager 0 :=
  ⟨by decide, by decide, by decide,
    match (dock_setters_frame id sampleWallpaperConfigKey sampleModel 0 1 (by decide)
      (by decide)).2.2.1 true with
    | ⟨m2, h0, hE, _, _, _, h4, _⟩ => ⟨m2, h0, hE, h4⟩⟩

end ksmoothdock
